import Mathlib

/-!
Verification of the video-playback modal of the LUMIX front end
(`VideoModal`), shallowly embedded in Lean 4.

The component owns: playback state (play/pause, position, duration),
an animation-frame progress sampler, a subtitle/caption manager
(two languages, blob-URL track resources, an exclusive selector),
and a favorite toggle synchronised with a remote store.  Each piece
below is translated from the corresponding function of the source
component; doc comments name the source symbol.
-/

namespace Lumix

/-- Subtitle language codes used by the component: the selector only ever
receives the strings "es", "en" or null. -/
inductive Lang where
  | es
  | en
deriving DecidableEq, Repr

/-- Mode of an HTML text track as used by the component
(`video.textTracks[i].mode`): the code writes only "hidden" and
"showing"; "disabled" is the element default. -/
inductive TrackMode where
  | disabled
  | hidden
  | showing
deriving DecidableEq, Repr

/-- One `<track>` element of the video: its language and current mode. -/
structure Track where
  lang : Lang
  mode : TrackMode
deriving DecidableEq, Repr

/-- The subtitle-related component state touched by `selectSubtitle`:
the video's text tracks (in DOM order), and the React state variables
`selectedSubtitle`, `showSubtitleMenu`, `captionsEnabled`. -/
structure SubtitleState where
  tracks : List Track
  selectedSubtitle : Option Lang
  showSubtitleMenu : Bool
  captionsEnabled : Bool
deriving DecidableEq, Repr

/-- The loop `for (let i = 0; i < video.textTracks.length; i++)
video.textTracks[i].mode = 'hidden'`: every track is set to hidden. -/
def hideAll (ts : List Track) : List Track :=
  ts.map (fun t => { t with mode := TrackMode.hidden })

/-- The assignment `video.textTracks[trackIndex].mode = 'showing'`: the
track at index `i` is set to showing, all others are left unchanged
(out-of-range indices change nothing, matching the source's guard
`if (video.textTracks[trackIndex])`). -/
def showTrack : List Track → Nat → List Track
  | [], _ => []
  | t :: ts, 0 => { t with mode := TrackMode.showing } :: ts
  | t :: ts, Nat.succ i => t :: showTrack ts i

/-- `selectSubtitle(lang)` from the source, on a mounted session
(`videoRef.current` non-null).  It stores the selection, closes the
menu, hides every track, and then, if a language was given and the
track list is non-empty, shows the track at the hard-coded index
(es maps to 0, en maps to 1) when that index exists; the else branch of
the outer conditional sets `captionsEnabled` to false. -/
def selectSubtitle (lang : Option Lang) (s : SubtitleState) : SubtitleState :=
  let s1 : SubtitleState :=
    { s with selectedSubtitle := lang
             showSubtitleMenu := false
             tracks := hideAll s.tracks }
  match lang with
  | some l =>
      if s1.tracks.length > 0 then
        let trackIndex := if l = Lang.es then 0 else 1
        if trackIndex < s1.tracks.length then
          { s1 with tracks := showTrack s1.tracks trackIndex
                    captionsEnabled := true }
        else
          s1
      else
        { s1 with captionsEnabled := false }
  | none => { s1 with captionsEnabled := false }

/-- Number of tracks currently in the "showing" mode. -/
def countShowing (s : SubtitleState) : Nat :=
  (s.tracks.filter (fun t => t.mode = TrackMode.showing)).length

/-- Applying a sequence of `selectSubtitle` calls in order. -/
def applyCalls (s : SubtitleState) (calls : List (Option Lang)) : SubtitleState :=
  calls.foldl (fun st l => selectSubtitle l st) s

theorem hideAll_filter_showing (ts : List Track) :
    (hideAll ts).filter (fun t => t.mode = TrackMode.showing) = [] := by
  induction ts with
  | nil => rfl
  | cons t ts ih => simp [hideAll]

theorem showTrack_countShowing_le (ts : List Track) (i : Nat)
    (h : (ts.filter (fun t => t.mode = TrackMode.showing)).length = 0) :
    ((showTrack ts i).filter (fun t => t.mode = TrackMode.showing)).length ≤ 1 := by
  induction ts generalizing i with
  | nil => simp [showTrack]
  | cons t ts ih =>
      have hm : ¬ t.mode = TrackMode.showing := by
        intro hm
        simp [List.filter_cons, hm] at h
      have hts : (ts.filter (fun t => t.mode = TrackMode.showing)).length = 0 := by
        simpa [List.filter_cons, hm] using h
      cases i with
      | zero =>
          simp [showTrack, List.filter_cons, hts]
      | succ i =>
          simpa [showTrack, List.filter_cons, hm] using ih i hts

theorem countShowing_selectSubtitle_le (lang : Option Lang) (s : SubtitleState) :
    countShowing (selectSubtitle lang s) ≤ 1 := by
  cases lang with
  | none => simp [selectSubtitle, countShowing, hideAll_filter_showing]
  | some l =>
      simp only [selectSubtitle, countShowing]
      repeat' split
      all_goals
        first
          | exact showTrack_countShowing_le _ _ (by simp [hideAll_filter_showing])
          | simp [hideAll_filter_showing]

theorem countShowing_selectSubtitle_none (s : SubtitleState) :
    countShowing (selectSubtitle none s) = 0 := by
  simp [selectSubtitle, countShowing, hideAll_filter_showing]

/-- C1.  Exclusive caption selection: starting from any state with at most
one showing track (in particular the freshly mounted session, where no
track is showing), every state reached by a sequence of `selectSubtitle`
calls has at most one track in "showing" mode, and a `selectSubtitle null`
call leaves zero tracks showing. -/
theorem exclusive_caption_selection (s : SubtitleState) (calls : List (Option Lang))
    (h : countShowing s ≤ 1) :
    countShowing (applyCalls s calls) ≤ 1 ∧
      ∀ s' : SubtitleState, countShowing (selectSubtitle none s') = 0 := by
  refine ⟨?_, fun s' => countShowing_selectSubtitle_none s'⟩
  induction calls generalizing s with
  | nil => exact h
  | cons c cs ih => exact ih _ (countShowing_selectSubtitle_le c s)

/-- C1 witness: a concrete run.  On a session with the two tracks rendered
and none showing, the call sequence select es, select en, select null
keeps at most one track showing and the final null call shows none. -/
theorem exclusive_caption_selection_witness :
    countShowing (applyCalls
        ⟨[⟨Lang.es, TrackMode.disabled⟩, ⟨Lang.en, TrackMode.disabled⟩], none, false, false⟩
        [some Lang.es, some Lang.en, none]) ≤ 1 ∧
      ∀ s' : SubtitleState, countShowing (selectSubtitle none s') = 0 :=
  exclusive_caption_selection
    ⟨[⟨Lang.es, TrackMode.disabled⟩, ⟨Lang.en, TrackMode.disabled⟩], none, false, false⟩
    [some Lang.es, some Lang.en, none] (by decide)

theorem length_hideAll (ts : List Track) : (hideAll ts).length = ts.length := by
  simp [hideAll]

theorem length_showTrack (ts : List Track) (i : Nat) :
    (showTrack ts i).length = ts.length := by
  induction ts generalizing i with
  | nil => rfl
  | cons t ts ih =>
      cases i with
      | zero => rfl
      | succ i => simp [showTrack, ih]

theorem hideAll_hideAll (ts : List Track) : hideAll (hideAll ts) = hideAll ts := by
  induction ts with
  | nil => rfl
  | cons t ts ih => simp [hideAll] at *

theorem hideAll_showTrack (ts : List Track) (i : Nat) :
    hideAll (showTrack ts i) = hideAll ts := by
  induction ts generalizing i with
  | nil => rfl
  | cons t ts ih =>
      cases i with
      | zero => simp [showTrack, hideAll]
      | succ i => simp [showTrack, hideAll] at *; exact ih i

/-- Re-selecting any language (or null) is idempotent: the second call
rewrites exactly the state the first call produced. -/
theorem selectSubtitle_idem (lang : Option Lang) (s : SubtitleState) :
    selectSubtitle lang (selectSubtitle lang s) = selectSubtitle lang s := by
  cases lang with
  | none => simp [selectSubtitle, hideAll_hideAll]
  | some l =>
      simp only [selectSubtitle]
      repeat' split
      all_goals
        simp_all [hideAll_hideAll, hideAll_showTrack, length_hideAll, length_showTrack]
      all_goals omega

/-- C7 counterexample: with only the English track rendered (the Spanish
subtitle resource is absent, so es does not appear among the track
languages), `selectSubtitle es` does not behave like `selectSubtitle null`:
the hard-coded index mapping (es to 0) lands on the English track, which is
put in "showing" mode with captions enabled — one track showing instead of
zero, refuting the claimed equivalence with disable. -/
theorem selectSubtitle_unavailable_not_disable :
    Lang.es ∉ (SubtitleState.mk [⟨Lang.en, TrackMode.hidden⟩] none false false).tracks.map Track.lang ∧
    countShowing (selectSubtitle (some Lang.es)
        ⟨[⟨Lang.en, TrackMode.hidden⟩], none, false, false⟩) = 1 ∧
    (selectSubtitle (some Lang.es)
        ⟨[⟨Lang.en, TrackMode.hidden⟩], none, false, false⟩).tracks =
      [⟨Lang.en, TrackMode.showing⟩] ∧
    (selectSubtitle (some Lang.es)
        ⟨[⟨Lang.en, TrackMode.hidden⟩], none, false, false⟩).captionsEnabled = true ∧
    selectSubtitle (some Lang.es) ⟨[⟨Lang.en, TrackMode.hidden⟩], none, false, false⟩ ≠
      selectSubtitle none ⟨[⟨Lang.en, TrackMode.hidden⟩], none, false, false⟩ := by
  decide

/-- C7 amended: the equivalence "selecting an unavailable language acts
like selecting null" holds when no track was rendered at all (then any
selected language yields zero showing tracks and captions disabled, exactly
as null does); and selecting the already-active language is a no-op
(idempotence).  When exactly one language's resource exists the
equivalence fails (see the counterexample): the fixed index mapping can
activate the other language's track or leave `captionsEnabled` stale. -/
theorem selectSubtitle_unavailable_amended :
    (∀ (s : SubtitleState) (l : Lang), s.tracks = [] →
        countShowing (selectSubtitle (some l) s) = countShowing (selectSubtitle none s) ∧
        (selectSubtitle (some l) s).captionsEnabled =
          (selectSubtitle none s).captionsEnabled ∧
        countShowing (selectSubtitle (some l) s) = 0 ∧
        (selectSubtitle (some l) s).captionsEnabled = false) ∧
    (∀ (lang : Option Lang) (s : SubtitleState),
        selectSubtitle lang (selectSubtitle lang s) = selectSubtitle lang s) := by
  constructor
  · intro s l h
    simp [selectSubtitle, countShowing, h, hideAll]
  · exact selectSubtitle_idem

/-- C7 witness: on the concrete empty-catalog state, selecting en equals
disabling, and re-selecting es on a two-track state is a no-op. -/
theorem selectSubtitle_unavailable_amended_witness :
    countShowing (selectSubtitle (some Lang.en)
        ⟨[], none, false, true⟩) = 0 ∧
    (selectSubtitle (some Lang.en) ⟨[], none, false, true⟩).captionsEnabled = false ∧
    selectSubtitle (some Lang.es) (selectSubtitle (some Lang.es)
        ⟨[⟨Lang.es, TrackMode.disabled⟩, ⟨Lang.en, TrackMode.disabled⟩], none, false, false⟩) =
      selectSubtitle (some Lang.es)
        ⟨[⟨Lang.es, TrackMode.disabled⟩, ⟨Lang.en, TrackMode.disabled⟩], none, false, false⟩ :=
  ⟨(selectSubtitle_unavailable_amended.1 ⟨[], none, false, true⟩ Lang.en rfl).2.2.1,
   (selectSubtitle_unavailable_amended.1 ⟨[], none, false, true⟩ Lang.en rfl).2.2.2,
   selectSubtitle_unavailable_amended.2 (some Lang.es)
     ⟨[⟨Lang.es, TrackMode.disabled⟩, ⟨Lang.en, TrackMode.disabled⟩], none, false, false⟩⟩

/-- Keys handled by the `handleKey` switch in the keydown effect; a
single constructor covers a lower/upper case pair, and `other` stands
for any key with no case in the switch. -/
inductive Key where
  | escape
  | space
  | keyK
  | keyF
  | arrowRight
  | arrowLeft
  | keyI
  | keyC
  | keyS
  | keyD
  | keyL
  | keyN
  | keyJ
  | other
deriving DecidableEq, Repr

/-- The handlers a key dispatches to. `close` is the `onClose` prop,
`selectSub l` is a call `selectSubtitle(l)`, `seekForward` and
`seekBackward` are `handleForward`/`handleBackward`. -/
inductive KeyAction where
  | close
  | togglePlay
  | toggleFavorite
  | seekForward
  | seekBackward
  | goToDetails
  | selectSub (lang : Option Lang)
deriving DecidableEq, Repr

/-- `handleKey` from the keydown effect.  Inputs: whether the event
target is an INPUT or TEXTAREA element (then the handler returns at
once), the key, and the `showSubtitleMenu` and `captionsEnabled` values
the handler closure sees.  Output: the new `showSubtitleMenu` value and
the dispatched actions, in order. -/
def handleKey (isTextInput : Bool) (key : Key)
    (showSubtitleMenu captionsEnabled : Bool) : Bool × List KeyAction :=
  if isTextInput then (showSubtitleMenu, [])
  else
    match key with
    | Key.escape =>
        if showSubtitleMenu then (false, [])
        else (showSubtitleMenu, [KeyAction.close])
    | Key.space => (showSubtitleMenu, [KeyAction.togglePlay])
    | Key.keyK => (showSubtitleMenu, [KeyAction.togglePlay])
    | Key.keyF => (showSubtitleMenu, [KeyAction.toggleFavorite])
    | Key.arrowRight => (showSubtitleMenu, [KeyAction.seekForward])
    | Key.arrowLeft => (showSubtitleMenu, [KeyAction.seekBackward])
    | Key.keyI => (showSubtitleMenu, [KeyAction.goToDetails])
    | Key.keyC => (!showSubtitleMenu, [])
    | Key.keyS =>
        (showSubtitleMenu,
         [KeyAction.selectSub (if captionsEnabled then none else some Lang.es)])
    | Key.keyD =>
        (showSubtitleMenu,
         [KeyAction.selectSub (if captionsEnabled then none else some Lang.en)])
    | Key.keyL => (showSubtitleMenu, [KeyAction.seekForward])
    | Key.keyN => (showSubtitleMenu, [KeyAction.selectSub none])
    | Key.keyJ => (showSubtitleMenu, [KeyAction.seekBackward])
    | Key.other => (showSubtitleMenu, [])

/-- C6.  Escape priority: with the subtitle menu open, Escape closes only
the menu and does not call `onClose`; with the menu closed, Escape calls
`onClose`; hence a second Escape after closing the menu closes the modal.
Holds for every value of the captured `captionsEnabled` flag. -/
theorem escape_priority (captionsEnabled : Bool) :
    (handleKey false Key.escape true captionsEnabled).1 = false ∧
    KeyAction.close ∉ (handleKey false Key.escape true captionsEnabled).2 ∧
    KeyAction.close ∈ (handleKey false Key.escape false captionsEnabled).2 ∧
    KeyAction.close ∈
      (handleKey false Key.escape
        (handleKey false Key.escape true captionsEnabled).1 captionsEnabled).2 := by
  cases captionsEnabled <;> decide

/-- C4.  The three seek entry points of the component, over exact
rationals (the source computes with JavaScript numbers; the clamping
logic is arithmetic on finite in-range values).  `handleForward` is
`currentTime = Math.min(currentTime + 10, duration)`. -/
def handleForward (current duration : ℚ) : ℚ :=
  min (current + 10) duration

/-- `handleBackward`: `currentTime = Math.max(currentTime - 10, 0)`. -/
def handleBackward (current : ℚ) : ℚ :=
  max (current - 10) 0

/-- `handleProgressClick`: `pct = Math.max(0, Math.min(1, x / rect.width))`
then `currentTime = pct * duration`, where `x` is the click offset within
the progress bar and `rect.width` its rendered (positive) width. -/
def handleProgressClick (x width duration : ℚ) : ℚ :=
  max 0 (min 1 (x / width)) * duration

/-- C4.  Position bounds under seeking: from any in-range position
(0 ≤ current ≤ duration, duration known) and any click on a progress bar
of positive rendered width, each seek operation lands in
[0, duration] by clamping; and from position 295 of a 300-second video,
seeking forward by 10 yields exactly 300. -/
theorem position_bounds (current duration x width : ℚ)
    (h0 : 0 ≤ current) (h1 : current ≤ duration) (_hw : 0 < width) :
    (0 ≤ handleForward current duration ∧ handleForward current duration ≤ duration) ∧
    (0 ≤ handleBackward current ∧ handleBackward current ≤ duration) ∧
    (0 ≤ handleProgressClick x width duration ∧
      handleProgressClick x width duration ≤ duration) ∧
    handleForward 295 300 = 300 := by
  have hd : (0 : ℚ) ≤ duration := le_trans h0 h1
  refine ⟨⟨le_min (by linarith) hd, min_le_right _ _⟩,
          ⟨le_max_right _ _, max_le (by linarith) hd⟩,
          ⟨?_, ?_⟩, ?_⟩
  · exact mul_nonneg (le_max_left _ _) hd
  · have hp : max 0 (min 1 (x / width)) ≤ 1 :=
      max_le zero_le_one (min_le_left _ _)
    calc max 0 (min 1 (x / width)) * duration
        ≤ 1 * duration := mul_le_mul_of_nonneg_right hp hd
      _ = duration := one_mul duration
  · show min (295 + 10 : ℚ) 300 = 300
    rw [min_eq_right (by norm_num)]

/-- C4 witness: the bounds at the concrete near-end scenario
(current 295, duration 300, a click at offset 5 on a bar of width 10). -/
theorem position_bounds_witness :
    (0 ≤ handleForward 295 300 ∧ handleForward 295 300 ≤ 300) ∧
    (0 ≤ handleBackward 295 ∧ handleBackward 295 ≤ 300) ∧
    (0 ≤ handleProgressClick 5 10 300 ∧ handleProgressClick 5 10 300 ≤ 300) ∧
    handleForward 295 300 = 300 :=
  position_bounds 295 300 5 10 (by norm_num) (by norm_num) (by norm_num)

/-- A favorite record as returned by the backend; `mongoId` models the
record's `_id` field (the source interface also carries timestamps,
which the component never reads). -/
structure Favorite where
  userId : String
  movieId : String
  mongoId : String
deriving DecidableEq, Repr

/-- The favorite-related component state: `isFavorite` and `favoriteId`. -/
structure FavState where
  isFavorite : Bool
  favoriteId : Option String
deriving DecidableEq, Repr

/-- The remote store behind `apiClient`: `create` is
`POST /api/v1/favorites` returning the created record, `delete` is
`DELETE /api/v1/favorites/movie/:id`; either may fail. -/
structure FavoriteStore where
  create : String → String → Except Unit Favorite
  delete : String → Except Unit Unit

/-- Observable steps of one `toggleFavorite` run, in program order:
the network request, the `setIsFavorite`/`setFavoriteId` state updates,
and the `onFavoriteChange` listener call. -/
inductive FavAction where
  | requestCreate (userId movieId : String)
  | requestDelete (favoriteId : String)
  | setIsFavorite (b : Bool)
  | setFavoriteId (v : Option String)
  | notify (movieId : String) (isFav : Bool) (favId : String)
deriving DecidableEq, Repr

/-- `toggleFavorite` from the source.  `user` is the id parsed from the
ambient user store (null when absent, in which case the function only
warns and returns).  The branch guard is the JavaScript truthiness test
`isFavorite && favoriteId`, under which both null and the empty string
fall through to the create path.  On a failed request the catch block
only logs, so no state update is emitted.  Returns the final
(isFavorite, favoriteId) state and the emitted actions in order. -/
def toggleFavorite (user : Option String) (movieId : String) (hasListener : Bool)
    (store : FavoriteStore) (s : FavState) : FavState × List FavAction :=
  match user with
  | none => (s, [])
  | some userId =>
      let createPath : FavState × List FavAction :=
        match store.create userId movieId with
        | Except.ok record =>
            ({ isFavorite := true, favoriteId := some record.mongoId },
             [FavAction.requestCreate userId movieId,
              FavAction.setIsFavorite true,
              FavAction.setFavoriteId (some record.mongoId)] ++
               (if hasListener then [FavAction.notify movieId true record.mongoId] else []))
        | Except.error _ => (s, [FavAction.requestCreate userId movieId])
      match s.isFavorite, s.favoriteId with
      | true, some favId =>
          if favId = "" then createPath
          else
            match store.delete favId with
            | Except.ok _ =>
                ({ isFavorite := false, favoriteId := none },
                 [FavAction.requestDelete favId,
                  FavAction.setIsFavorite false] ++
                   (if hasListener then [FavAction.notify movieId false favId] else []) ++
                  [FavAction.setFavoriteId none])
            | Except.error _ => (s, [FavAction.requestDelete favId])
      | _, _ => createPath

/-- C2.  Both toggle directions, with a valid user and a listener: from
(false, null) with a store whose create returns a record with id "f1",
the state becomes (true, "f1") and the listener receives
(movieId, true, "f1"); from (true, "f1") with a store that accepts the
delete, the state becomes (false, null) and the listener receives
(movieId, false, "f1"). -/
theorem toggle_favorite_scenarios (u m : String) (store : FavoriteStore) (r : Favorite)
    (hc : store.create u m = Except.ok r) (hr : r.mongoId = "f1")
    (hd : store.delete "f1" = Except.ok ()) :
    (toggleFavorite (some u) m true store ⟨false, none⟩).1 = ⟨true, some "f1"⟩ ∧
    FavAction.notify m true "f1" ∈ (toggleFavorite (some u) m true store ⟨false, none⟩).2 ∧
    (toggleFavorite (some u) m true store ⟨true, some "f1"⟩).1 = ⟨false, none⟩ ∧
    FavAction.notify m false "f1" ∈
      (toggleFavorite (some u) m true store ⟨true, some "f1"⟩).2 := by
  simp [toggleFavorite, hc, hr, hd]

/-- A store that always succeeds, returning "f1" on create. -/
def okStore : FavoriteStore where
  create := fun userId movieId => Except.ok ⟨userId, movieId, "f1"⟩
  delete := fun _ => Except.ok ()

/-- C2 witness: the two scenarios executed against the concrete store. -/
theorem toggle_favorite_scenarios_witness :
    (toggleFavorite (some "u1") "m1" true okStore ⟨false, none⟩).1 = ⟨true, some "f1"⟩ ∧
    FavAction.notify "m1" true "f1" ∈
      (toggleFavorite (some "u1") "m1" true okStore ⟨false, none⟩).2 ∧
    (toggleFavorite (some "u1") "m1" true okStore ⟨true, some "f1"⟩).1 = ⟨false, none⟩ ∧
    FavAction.notify "m1" false "f1" ∈
      (toggleFavorite (some "u1") "m1" true okStore ⟨true, some "f1"⟩).2 :=
  toggle_favorite_scenarios "u1" "m1" okStore ⟨"u1", "m1", "f1"⟩ rfl rfl rfl

/-- An action that is a network request. -/
def isRequest : FavAction → Bool
  | FavAction.requestCreate _ _ => true
  | FavAction.requestDelete _ => true
  | _ => false

/-- An action that mutates component state or notifies the listener. -/
def isStateUpdate : FavAction → Bool
  | FavAction.setIsFavorite _ => true
  | FavAction.setFavoriteId _ => true
  | FavAction.notify _ _ _ => true
  | _ => false

/-- C8.  Pessimistic mutation with atomicity on error: against a store
whose create and delete always fail, `toggleFavorite` leaves
(isFavorite, favoriteId) unchanged and emits no state update or listener
call; and against any store and state whatsoever, the first emitted
action is always the network request, so no state update precedes the
request settling. -/
theorem pessimistic_favorite_toggle (user : Option String) (m : String) (hl : Bool)
    (store : FavoriteStore) (s : FavState)
    (hcf : ∀ uid mid, store.create uid mid = Except.error ())
    (hdf : ∀ fid, store.delete fid = Except.error ()) :
    (toggleFavorite user m hl store s).1 = s ∧
    (∀ a ∈ (toggleFavorite user m hl store s).2, isStateUpdate a = false) ∧
    (∀ (user' : Option String) (store' : FavoriteStore) (s' : FavState),
      ((toggleFavorite user' m hl store' s').2.head?.all isRequest) = true) := by
  obtain ⟨fav, fid⟩ := s
  refine ⟨?_, ?_, ?_⟩
  · cases user with
    | none => rfl
    | some uid =>
        cases fav <;> rcases fid with _ | fid <;>
          simp [toggleFavorite, hcf, hdf]
        all_goals split <;> simp [hcf, hdf]
  · cases user with
    | none => simp [toggleFavorite]
    | some uid =>
        cases fav <;> rcases fid with _ | fid <;>
          simp [toggleFavorite, hcf, hdf, isStateUpdate]
        all_goals split <;> simp [hcf, hdf, isStateUpdate]
  · intro user' store' s'
    obtain ⟨fav', fid'⟩ := s'
    cases user' with
    | none => rfl
    | some uid =>
        cases fav' <;> rcases fid' with _ | fid' <;>
          simp only [toggleFavorite] <;>
          (repeat' split) <;>
          simp [isRequest]

/-- A store that always fails. -/
def failStore : FavoriteStore where
  create := fun _ _ => Except.error ()
  delete := fun _ => Except.error ()

/-- C8 witness: a failing delete on the concrete favorited state changes
nothing and emits no update, and requests always come first. -/
theorem pessimistic_favorite_toggle_witness :
    (toggleFavorite (some "u1") "m1" true failStore ⟨true, some "f1"⟩).1 = ⟨true, some "f1"⟩ ∧
    (∀ a ∈ (toggleFavorite (some "u1") "m1" true failStore ⟨true, some "f1"⟩).2,
      isStateUpdate a = false) ∧
    (∀ (user' : Option String) (store' : FavoriteStore) (s' : FavState),
      ((toggleFavorite user' "m1" true store' s').2.head?.all isRequest) = true) :=
  pessimistic_favorite_toggle (some "u1") "m1" true failStore ⟨true, some "f1"⟩
    (fun _ _ => rfl) (fun _ => rfl)

/-- C10.  A toggle racing ahead of the initial status load: with a valid
user and state isFavorite = true, favoriteId = null, the guard
`isFavorite && favoriteId` is falsy, so the run issues the create request
(and never a delete), whatever the store answers. -/
theorem stale_toggle_takes_create_path (u m : String) (hl : Bool) (store : FavoriteStore) :
    (toggleFavorite (some u) m hl store ⟨true, none⟩).2.head? =
      some (FavAction.requestCreate u m) ∧
    ∀ fid, FavAction.requestDelete fid ∉
      (toggleFavorite (some u) m hl store ⟨true, none⟩).2 := by
  simp only [toggleFavorite]
  rcases h : store.create u m with e | r <;> cases hl <;> simp [h]

/-- The JSON body answered by `GET /api/v1/sb/:movieId/subtitles/:lang`
(the component reads only the `subtitle` text). -/
structure SubtitleResponse where
  subtitle : String
deriving DecidableEq, Repr

/-- An object URL minted by `URL.createObjectURL`: the allocation counter
makes every minted URL distinct; `content` is the text of the blob it
references. -/
structure BlobUrl where
  id : Nat
  content : String
deriving DecidableEq, Repr

/-- The `subtitleUrls` React state: an optional object URL per language. -/
structure SubtitleUrls where
  es : Option BlobUrl
  en : Option BlobUrl
deriving DecidableEq, Repr

/-- The VTT payload built from fetched subtitle text. -/
def vttOf (text : String) : String :=
  "WEBVTT\n\n00:00:00.000 --> 00:00:10.000\n" ++ text

/-- The body of the `fetchSubtitles` closure in the subtitle effect.
Both awaits sit in one try block: first the English fetch, then the
Spanish one; only if both resolve are the VTT blobs built (a blob and
its object URL are created for a language exactly when its `subtitle`
text is truthy, i.e. non-empty).  Any rejection lands in the single
catch, which stores the empty object.  Inputs: the two fetch outcomes
and the object-URL allocation counter.  Output: the stored
`subtitleUrls` value, the object URLs created, and the new counter. -/
def fetchSubtitles (respEn respEs : Except Unit SubtitleResponse) (nextId : Nat) :
    SubtitleUrls × List BlobUrl × Nat :=
  match respEn, respEs with
  | Except.ok en, Except.ok es =>
      let stepEn : Option BlobUrl × List BlobUrl × Nat :=
        if en.subtitle ≠ "" then
          (some ⟨nextId, vttOf en.subtitle⟩, [(⟨nextId, vttOf en.subtitle⟩ : BlobUrl)],
           nextId + 1)
        else (none, [], nextId)
      let stepEs : Option BlobUrl × List BlobUrl × Nat :=
        if es.subtitle ≠ "" then
          (some ⟨stepEn.2.2, vttOf es.subtitle⟩,
           [(⟨stepEn.2.2, vttOf es.subtitle⟩ : BlobUrl)], stepEn.2.2 + 1)
        else (none, [], stepEn.2.2)
      (⟨stepEs.1, stepEn.1⟩, stepEn.2.1 ++ stepEs.2.1, stepEs.2.2)
  | _, _ => (⟨none, none⟩, [], nextId)

/-- C3 counterexample: the English fetch succeeds with non-empty text
while the Spanish fetch fails, yet no English track is stored — the
single catch discards both languages, refuting the claimed independence
of the two per-language fetches (and symmetrically with the roles
swapped). -/
theorem caption_fetches_not_independent :
    (fetchSubtitles (Except.ok ⟨"hello"⟩) (Except.error ()) 0).1.en = none ∧
    (fetchSubtitles (Except.error ()) (Except.ok ⟨"hola"⟩) 0).1.es = none ∧
    (fetchSubtitles (Except.ok ⟨"hello"⟩) (Except.ok ⟨"hola"⟩) 0).1.en ≠ none := by
  refine ⟨rfl, rfl, ?_⟩
  simp [fetchSubtitles]

/-- C3 amended: the two fetches run sequentially inside one error scope:
if either language's fetch fails, no track is stored for any language
and no object URL is created; only when both fetches succeed is each
language's track stored, and then exactly when its subtitle text is
non-empty. -/
theorem fetch_joint_error_scope (rEn rEs : Except Unit SubtitleResponse) (n : Nat) :
    ((rEn = Except.error () ∨ rEs = Except.error ()) →
      (fetchSubtitles rEn rEs n).1 = ⟨none, none⟩ ∧
      (fetchSubtitles rEn rEs n).2.1 = []) ∧
    (∀ en es, rEn = Except.ok en → rEs = Except.ok es →
      ((fetchSubtitles rEn rEs n).1.en = none ↔ en.subtitle = "") ∧
      ((fetchSubtitles rEn rEs n).1.es = none ↔ es.subtitle = "")) := by
  constructor
  · intro h
    rcases rEn with e | en
    · simp [fetchSubtitles]
    · rcases rEs with e | es
      · simp [fetchSubtitles]
      · rcases h with h | h <;> simp at h
  · intro en es hen hes
    subst hen; subst hes
    constructor
    · by_cases h : en.subtitle = "" <;> simp [fetchSubtitles, h]
    · by_cases h : es.subtitle = "" <;> simp [fetchSubtitles, h]

/-- C3 amended witness: a failed Spanish fetch wipes the successful
English one, and with both fetches succeeding the English track is
stored. -/
theorem fetch_joint_error_scope_witness :
    (fetchSubtitles (Except.ok ⟨"hello"⟩) (Except.error ()) 0).1 = ⟨none, none⟩ ∧
    (fetchSubtitles (Except.ok ⟨"hello"⟩) (Except.error ()) 0).2.1 = [] ∧
    ((fetchSubtitles (Except.ok ⟨"hello"⟩) (Except.ok ⟨"hola"⟩) 0).1.en = none ↔
      ("hello" : String) = "") :=
  ⟨((fetch_joint_error_scope (Except.ok ⟨"hello"⟩) (Except.error ()) 0).1 (Or.inr rfl)).1,
   ((fetch_joint_error_scope (Except.ok ⟨"hello"⟩) (Except.error ()) 0).1 (Or.inr rfl)).2,
   ((fetch_joint_error_scope (Except.ok ⟨"hello"⟩) (Except.ok ⟨"hola"⟩) 0).2
     ⟨"hello"⟩ ⟨"hola"⟩ rfl rfl).1⟩

/-- One mounted subtitle session, as far as object URLs are concerned.
`subtitleUrls` is the current React state; `cleanupCapture` is the
`subtitleUrls` value seen by the cleanup closure the effect registered —
the closure from the render in which the effect ran, which for a plain
mount is the initial empty state, since a later `setSubtitleUrls` does
not re-run the effect (its only dependency is `movieId`). -/
structure CaptionSession where
  subtitleUrls : SubtitleUrls
  cleanupCapture : SubtitleUrls
  createdUrls : List BlobUrl
  revokedUrls : List BlobUrl
  nextId : Nat
deriving DecidableEq, Repr

/-- Mounting the component: `subtitleUrls` starts as the empty object and
the effect's cleanup closure captures exactly that value. -/
def mountSession : CaptionSession :=
  ⟨⟨none, none⟩, ⟨none, none⟩, [], [], 0⟩

/-- The fetch settling: the created object URLs are recorded and
`setSubtitleUrls` stores them, but the registered cleanup closure keeps
its captured value. -/
def fetchSettles (rEn rEs : Except Unit SubtitleResponse) (s : CaptionSession) :
    CaptionSession :=
  { s with subtitleUrls := (fetchSubtitles rEn rEs s.nextId).1
           createdUrls := s.createdUrls ++ (fetchSubtitles rEn rEs s.nextId).2.1
           nextId := (fetchSubtitles rEn rEs s.nextId).2.2 }

/-- The effect cleanup run at teardown:
`if (subtitleUrls.en) URL.revokeObjectURL(subtitleUrls.en)` and the same
for es — on the closure's captured value. -/
def runCleanup (s : CaptionSession) : CaptionSession :=
  { s with revokedUrls :=
      s.revokedUrls ++
        (match s.cleanupCapture.en with | some u => [u] | none => []) ++
        (match s.cleanupCapture.es with | some u => [u] | none => []) }

/-- Object URLs created during the session and never revoked. -/
def liveUrls (s : CaptionSession) : List BlobUrl :=
  s.createdUrls.filter (fun u => decide (u ∉ s.revokedUrls))

/-- C9.  The code contradicts the teardown contract: mount, let both
subtitle fetches succeed with non-empty text (two object URLs are
created and stored), then unmount.  The cleanup closure still sees the
mount-time empty `subtitleUrls`, so it revokes nothing and both blob
URLs outlive the session. -/
theorem blob_urls_leak_on_unmount :
    (runCleanup (fetchSettles (Except.ok ⟨"hello"⟩) (Except.ok ⟨"hola"⟩)
        mountSession)).createdUrls =
      [⟨0, vttOf "hello"⟩, ⟨1, vttOf "hola"⟩] ∧
    (runCleanup (fetchSettles (Except.ok ⟨"hello"⟩) (Except.ok ⟨"hola"⟩)
        mountSession)).revokedUrls = [] ∧
    liveUrls (runCleanup (fetchSettles (Except.ok ⟨"hello"⟩) (Except.ok ⟨"hola"⟩)
        mountSession)) =
      [⟨0, vttOf "hello"⟩, ⟨1, vttOf "hola"⟩] :=
  ⟨rfl, rfl, rfl⟩

/-- The playback state the animation-frame effect interacts with:
component mount status, the `isPlaying` React state, the media element's
`paused` flag, whether `loadedmetadata` has fired (the spec's
Loading/Ready distinction), and whether an animation-frame handle is
currently scheduled (`rafRef.current` non-null, i.e. the sampling loop
is running). -/
structure PlayerState where
  mounted : Bool
  isPlaying : Bool
  videoPaused : Bool
  metadataLoaded : Bool
  rafActive : Bool
deriving DecidableEq, Repr

/-- The effect's cleanup: `cancelAnimationFrame(rafRef.current)` and
`rafRef.current = null` — since every tick re-stores its own handle,
cancelling the stored handle stops the self-rescheduling loop. -/
def rafCleanup (s : PlayerState) : PlayerState :=
  { s with rafActive := false }

/-- The effect body (dependencies `isPlaying` and `duration`): with the
video present, `if (!video.paused && isPlaying)` schedule a tick, then
`if (isPlaying && video.paused)` call `play()` and schedule a tick. -/
def rafEffectBody (s : PlayerState) : PlayerState :=
  if !s.mounted then s
  else
    let s1 := if !s.videoPaused && s.isPlaying then { s with rafActive := true } else s
    if s1.isPlaying && s1.videoPaused then
      { s1 with videoPaused := false, rafActive := true }
    else s1

/-- A re-run of the effect, as React performs it when a dependency
changed: previous cleanup first, then the body. -/
def runRafEffect (s : PlayerState) : PlayerState :=
  rafEffectBody (rafCleanup s)

/-- The transitions that touch the effect's dependencies: `pause` and
`play` are the two branches of `togglePlay`; `ended` is the media
element's ended event (the element becomes paused and `onEnd` clears
`isPlaying`); `metadataLoaded` is `onLoaded` (duration becomes known and
playback starts if intended, re-running the effect through the
`duration` dependency); `unmount` runs only the cleanup. -/
inductive PlayerEvent where
  | pause
  | play
  | ended
  | metadataLoaded
  | unmount
deriving DecidableEq, Repr

/-- One event applied to the session; events other than `unmount` only
have effects while the component is mounted (its listeners are removed
on unmount). -/
def playerStep (s : PlayerState) : PlayerEvent → PlayerState
  | PlayerEvent.pause =>
      if s.mounted then
        runRafEffect { s with isPlaying := false, videoPaused := true }
      else s
  | PlayerEvent.play =>
      if s.mounted then
        runRafEffect { s with isPlaying := true, videoPaused := false }
      else s
  | PlayerEvent.ended =>
      if s.mounted then
        runRafEffect { s with isPlaying := false, videoPaused := true }
      else s
  | PlayerEvent.metadataLoaded =>
      if s.mounted then
        runRafEffect { s with metadataLoaded := true,
                              videoPaused := if s.isPlaying then false else s.videoPaused }
      else s
  | PlayerEvent.unmount => rafCleanup { s with mounted := false }

/-- Mounting the component: `isPlaying` starts true (`useState(true)`),
the element is still paused with no metadata, and the effect runs once. -/
def mountPlayer : PlayerState :=
  runRafEffect
    { mounted := true, isPlaying := true, videoPaused := true,
      metadataLoaded := false, rafActive := false }

/-- The state after a sequence of events on a freshly mounted session. -/
def runEvents (evs : List PlayerEvent) : PlayerState :=
  evs.foldl playerStep mountPlayer

/-- The spec's Ready-Playing state: mounted, metadata loaded, playing. -/
def ReadyPlaying (s : PlayerState) : Prop :=
  s.mounted = true ∧ s.isPlaying = true ∧ s.metadataLoaded = true

theorem playerStep_invariant (s : PlayerState) (e : PlayerEvent)
    (h : s.rafActive = (s.mounted && s.isPlaying)) :
    (playerStep s e).rafActive =
      ((playerStep s e).mounted && (playerStep s e).isPlaying) := by
  obtain ⟨m, p, vp, ml, ra⟩ := s
  revert h
  cases e <;> cases m <;> cases p <;> cases vp <;> cases ml <;> cases ra <;> decide

theorem runEvents_invariant (evs : List PlayerEvent) :
    (runEvents evs).rafActive =
      ((runEvents evs).mounted && (runEvents evs).isPlaying) := by
  suffices h : ∀ s : PlayerState, s.rafActive = (s.mounted && s.isPlaying) →
      (evs.foldl playerStep s).rafActive =
        ((evs.foldl playerStep s).mounted && (evs.foldl playerStep s).isPlaying) by
    exact h mountPlayer (by decide)
  induction evs with
  | nil => intro s h; exact h
  | cons e es ih => intro s h; exact ih _ (playerStep_invariant s e h)

/-- C5 counterexample: immediately after mount the effect has already
scheduled the sampling loop (`isPlaying` starts true and the body's
play-and-schedule branch fires), yet metadata has not loaded, so the
session is still in the Loading state, not Ready-Playing — the claimed
"running if and only if Ready-Playing" fails in the only-if direction. -/
theorem sampler_runs_before_ready :
    mountPlayer.rafActive = true ∧ mountPlayer.metadataLoaded = false ∧
      ¬ ReadyPlaying mountPlayer := by
  unfold ReadyPlaying
  decide

/-- C5 amended: after any event sequence on a mounted session, the
sampling loop is scheduled exactly when the component is mounted and
`isPlaying` holds — a condition implied by Ready-Playing but also true
during the Loading phase with intent to play.  In particular the loop is
running whenever the session is Ready-Playing, and a pause, ended, or
unmount transition always leaves the loop cancelled. -/
theorem sampler_lifecycle_amended (evs : List PlayerEvent) :
    ((runEvents evs).rafActive =
      ((runEvents evs).mounted && (runEvents evs).isPlaying)) ∧
    (ReadyPlaying (runEvents evs) → (runEvents evs).rafActive = true) ∧
    (playerStep (runEvents evs) PlayerEvent.pause).rafActive = false ∧
    (playerStep (runEvents evs) PlayerEvent.ended).rafActive = false ∧
    (playerStep (runEvents evs) PlayerEvent.unmount).rafActive = false := by
  have hinv := runEvents_invariant evs
  have hstep : ∀ (s : PlayerState), s.rafActive = (s.mounted && s.isPlaying) →
      (playerStep s PlayerEvent.pause).rafActive = false ∧
      (playerStep s PlayerEvent.ended).rafActive = false ∧
      (playerStep s PlayerEvent.unmount).rafActive = false := by
    intro s h
    obtain ⟨m, p, vp, ml, ra⟩ := s
    revert h
    cases m <;> cases p <;> cases vp <;> cases ml <;> cases ra <;> decide
  refine ⟨hinv, ?_, hstep _ hinv⟩
  intro hr
  rw [hinv, hr.1, hr.2.1]
  rfl

/-- C5 amended witness: after metadata loads the session is
Ready-Playing with the loop scheduled, and each stopping event cancels
it. -/
theorem sampler_lifecycle_amended_witness :
    ((runEvents [PlayerEvent.metadataLoaded]).rafActive =
      ((runEvents [PlayerEvent.metadataLoaded]).mounted &&
        (runEvents [PlayerEvent.metadataLoaded]).isPlaying)) ∧
    (runEvents [PlayerEvent.metadataLoaded]).rafActive = true ∧
    (playerStep (runEvents [PlayerEvent.metadataLoaded]) PlayerEvent.pause).rafActive
      = false ∧
    (playerStep (runEvents [PlayerEvent.metadataLoaded]) PlayerEvent.ended).rafActive
      = false ∧
    (playerStep (runEvents [PlayerEvent.metadataLoaded]) PlayerEvent.unmount).rafActive
      = false :=
  ⟨(sampler_lifecycle_amended [PlayerEvent.metadataLoaded]).1,
   (sampler_lifecycle_amended [PlayerEvent.metadataLoaded]).2.1 ⟨rfl, rfl, rfl⟩,
   (sampler_lifecycle_amended [PlayerEvent.metadataLoaded]).2.2.1,
   (sampler_lifecycle_amended [PlayerEvent.metadataLoaded]).2.2.2.1,
   (sampler_lifecycle_amended [PlayerEvent.metadataLoaded]).2.2.2.2⟩

end Lumix
